import Mathlib

/-!
Verification development for the linking / name-resolution core of the
sus-compiler repository.

The repository snapshot contains two generations of the linker:
* `src/linker.rs` — the self-contained linker (entity store, global
  namespace, file registry, duplicate-declaration diagnostics).  It is
  embedded below inside `namespace legacy`.
* `src/linker/resolver.rs`, `src/compiler_top.rs`, `src/typing/template.rs` —
  the current resolver / pipeline generation, embedded at top level.

Machine details (arena indices, spans) are embedded as plain natural
numbers; fallible operations and fatal assertions are embedded as
`Option`-returning functions where `none` marks the fatal-assertion /
panic outcome.
-/

/-- A source span. The code treats spans as opaque slice indices into the
file text; we keep them as a pair of naturals (start, end). -/
abbrev Span := Nat × Nat

/-- `FileUUID`: arena index into the file registry (`UUID<FileUUIDMarker>`). -/
abbrev FileUUID := Nat

/-- `SpanFile`: a (span, file) location pair as used by diagnostics. -/
abbrev SpanFile := Span × FileUUID

/-- Modelled from the spec (§4.1 Entity Store): `arena_alloc.rs` is not part
of the source excerpt.  An arena of slots addressed by stable indices;
`none` marks a reserved-or-freed slot.  Indexing a reserved/freed slot is a
fatal internal error in the source; the embedding surfaces such reads as
`none`. -/
structure ArenaAllocator (α : Type) where
  slots : List (Option α)
deriving DecidableEq

/-- `ArenaAllocator::alloc`: appends a filled slot, returns its fresh index. -/
def ArenaAllocator.alloc {α : Type} (a : ArenaAllocator α) (v : α) : ArenaAllocator α × Nat :=
  (⟨a.slots ++ [some v]⟩, a.slots.length)

/-- `ArenaAllocator::reserve`: appends an empty slot, returns its fresh index. -/
def ArenaAllocator.reserve {α : Type} (a : ArenaAllocator α) : ArenaAllocator α × Nat :=
  (⟨a.slots ++ [none]⟩, a.slots.length)

/-- `ArenaAllocator::alloc_reservation`: fills a previously reserved slot. -/
def ArenaAllocator.alloc_reservation {α : Type} (a : ArenaAllocator α) (id : Nat) (v : α) : ArenaAllocator α :=
  ⟨a.slots.set id (some v)⟩

/-- `ArenaAllocator::free`: invalidates a slot; the index is never legal to
dereference afterwards. -/
def ArenaAllocator.free {α : Type} (a : ArenaAllocator α) (id : Nat) : ArenaAllocator α :=
  ⟨a.slots.set id none⟩

/-- Reading a slot. `none` both for out-of-range and reserved/freed slots
(the source makes such reads a fatal internal error). -/
def ArenaAllocator.get? {α : Type} (a : ArenaAllocator α) (id : Nat) : Option α :=
  (a.slots.get? id).join

namespace legacy

/-- `NamedUUID`: arena index of a global entity (`UUID<NamedUUIDMarker>`). -/
abbrev NamedUUID := Nat

/-- `crate::value::Value`, restricted to the constructors the linker builds
(`Value::Bool` for the builtin constants). -/
inductive Value where
  | Bool (b : Bool)
deriving DecidableEq

/-- `crate::typing::Type`, restricted to what `Value::get_type_of_constant`
produces for the builtin constants. (`Type` is a reserved word in Lean.) -/
inductive Ty where
  | Bool
  | Int
deriving DecidableEq

/-- `Value::get_type_of_constant`. -/
def Value.get_type_of_constant : Value → Ty
  | .Bool _ => Ty.Bool

/-- `crate::ast::LinkInfo`, restricted to the fields `linker.rs` reads:
the declared name, the owning file and the name span. -/
structure LinkInfo where
  name : String
  file : FileUUID
  name_span : Span
deriving DecidableEq

/-- `crate::ast::Module`, restricted to the `link_info` field that
`linker.rs` reads (the flattened body and instantiation list belong to the
out-of-scope flattening/instantiation stages). -/
structure Module where
  link_info : LinkInfo
deriving DecidableEq

/-- `NamedConstant` (linker.rs). -/
inductive NamedConstant where
  | Builtin (name : String) (typ : Ty) (val : Value)
deriving DecidableEq

/-- `NamedType` (linker.rs). -/
inductive NamedType where
  | Builtin (name : String)
deriving DecidableEq

/-- `Named` (linker.rs): a global entity. (`Type` is a reserved word in
Lean, so the third constructor is written `«Type»`.) -/
inductive Named where
  | Constant (v : NamedConstant)
  | Module (md : Module)
  | «Type» (t : NamedType)
deriving DecidableEq

/-- `Linkable::get_name` for `NamedConstant`. -/
def NamedConstant.get_name : NamedConstant → String
  | .Builtin name _ _ => name

/-- `Linkable::get_name` for `NamedType`. -/
def NamedType.get_name : NamedType → String
  | .Builtin name => name

/-- `Linkable::get_name` for `Named`. -/
def Named.get_name : Named → String
  | .Constant v => v.get_name
  | .«Type» t => t.get_name
  | .Module md => md.link_info.name

/-- `Linkable::get_link_info` for `Named`: builtins carry no `LinkInfo`. -/
def Named.get_link_info : Named → Option LinkInfo
  | .Constant _ => none
  | .«Type» _ => none
  | .Module md => some md.link_info

/-- `NamespaceElement` (linker.rs): one bucket of the global namespace.
The source misspelling `Colission` is kept. -/
inductive NamespaceElement where
  | Global (id : NamedUUID)
  | Colission (ids : List NamedUUID)
deriving DecidableEq

/-- `ErrorInfo` (errors.rs): one secondary info label of a diagnostic.
`linker.rs` passes the owning file's id for the `file_name` field. -/
structure ErrorInfo where
  position : Span
  file : FileUUID
  info : String
deriving DecidableEq

/-- `ParsingError` (errors.rs): one collected diagnostic. -/
structure ParsingError where
  position : Span
  reason : String
  infos : List ErrorInfo
deriving DecidableEq

/-- `error_info` (errors.rs). -/
def error_info (position : Span) (file : FileUUID) (reason : String) : ErrorInfo :=
  ⟨position, file, reason⟩

/-- `ErrorCollector` (errors.rs). -/
structure ErrorCollector where
  errors : List ParsingError
  main_file : FileUUID
deriving DecidableEq

/-- `ErrorCollector::error_basic`. -/
def ErrorCollector.error_basic (ec : ErrorCollector) (position : Span) (reason : String) : ErrorCollector :=
  { ec with errors := ec.errors ++ [⟨position, reason, []⟩] }

/-- `ErrorCollector::error_with_info`. -/
def ErrorCollector.error_with_info (ec : ErrorCollector) (position : Span) (reason : String) (infos : List ErrorInfo) : ErrorCollector :=
  { ec with errors := ec.errors ++ [⟨position, reason, infos⟩] }

/-- `FileData` (linker.rs), restricted to the fields the modelled
operations read.  The `tokens`/`token_hierarchy` parse artifacts are opaque
outputs of the out-of-scope tokenizer/parser and are not consulted by the
operations embedded here. -/
structure FileData where
  file_text : String
  parsing_errors : ErrorCollector
  associated_values : List NamedUUID
deriving DecidableEq

/-- The `HashMap<Box<str>, NamespaceElement>` global namespace, embedded as
an association list whose keys are kept unique by construction. -/
abbrev GlobalNamespace := List (String × NamespaceElement)

/-- `HashMap::get` on the global namespace. -/
def nsGet (ns : GlobalNamespace) (name : String) : Option NamespaceElement :=
  (ns.find? (fun p => p.1 == name)).map (fun p => p.2)

/-- `Linker` (linker.rs): entity store + global namespace + file registry. -/
structure Linker where
  globals : ArenaAllocator Named
  global_namespace : GlobalNamespace
  files : ArenaAllocator FileData
deriving DecidableEq

/-- `BUILTIN_TYPES` (linker.rs). -/
def BUILTIN_TYPES : List String := ["bool", "int"]

/-- `BUILTIN_CONSTANTS` (linker.rs). -/
def BUILTIN_CONSTANTS : List (String × Value) := [("true", Value.Bool true), ("false", Value.Bool false)]

/-- `get_builtin_type` (linker.rs): position of the name in `BUILTIN_TYPES`.
The source `unreachable!` for foreign names is embedded as `Option`. -/
def get_builtin_type (name : String) : Option NamedUUID :=
  BUILTIN_TYPES.indexOf? name

/-- `Linker::new` (linker.rs): registers the builtin types and constants.
The source asserts each insertion finds the name unused; the builtin names
are pairwise distinct so plain insertion is equivalent. -/
def Linker.new : Linker :=
  let step1 := BUILTIN_TYPES.foldl
    (fun (acc : ArenaAllocator Named × GlobalNamespace) name =>
      let (globals, id) := acc.1.alloc (Named.«Type» (NamedType.Builtin name))
      (globals, acc.2 ++ [(name, NamespaceElement.Global id)]))
    (⟨[]⟩, [])
  let step2 := BUILTIN_CONSTANTS.foldl
    (fun (acc : ArenaAllocator Named × GlobalNamespace) nv =>
      let (globals, id) := acc.1.alloc (Named.Constant (NamedConstant.Builtin nv.1 nv.2.get_type_of_constant nv.2))
      (globals, acc.2 ++ [(nv.1, NamespaceElement.Global id)]))
    step1
  { globals := step2.1, global_namespace := step2.2, files := ⟨[]⟩ }

/-- `Linker::get_obj_by_name` (linker.rs): only a `Global` (non-colliding)
bucket resolves; the entity is then read from the store. -/
def Linker.get_obj_by_name (l : Linker) (name : String) : Option Named :=
  match nsGet l.global_namespace name with
  | some (NamespaceElement.Global id) => l.globals.get? id
  | _ => none

/-- `Linker::get_obj_id` (linker.rs). -/
def Linker.get_obj_id (l : Linker) (name : String) : Option NamedUUID :=
  match nsGet l.global_namespace name with
  | some (NamespaceElement.Global id) => some id
  | _ => none

/-- The bucket update of `Linker::add_name` (linker.rs), on the assoc-list
namespace: occupied `Global g` becomes `Colission [g, new]`, an occupied
`Colission` appends, a vacant entry becomes `Global new`. -/
def addNameNS : GlobalNamespace → String → NamedUUID → GlobalNamespace
  | [], name, id => [(name, NamespaceElement.Global id)]
  | (k, v) :: rest, name, id =>
    if k == name then
      (k, match v with
          | NamespaceElement.Global g => NamespaceElement.Colission [g, id]
          | NamespaceElement.Colission coll => NamespaceElement.Colission (coll ++ [id])) :: rest
    else
      (k, v) :: addNameNS rest name id

/-- `Linker::add_name` (linker.rs). -/
def Linker.add_name (l : Linker) (module_name : String) (new_module_uuid : NamedUUID) : Linker :=
  { l with global_namespace := addNameNS l.global_namespace module_name new_module_uuid }

/-- The entity-id set removed by `Linker::remove_file_datas`: the union of
the `associated_values` of the removed files. -/
def removedIdSet (l : Linker) (files : List FileUUID) : List NamedUUID :=
  files.foldl
    (fun acc f => acc ++ (match l.files.get? f with
                          | some fd => fd.associated_values
                          | none => [])) []

/-- The `global_namespace.retain` closure of `Linker::remove_file_datas`
(linker.rs), per entry: a `Global` bucket survives iff its id was not
removed; a `Colission` bucket is filtered and survives iff it keeps at
least one id — note that it stays a `Colission` even when only a single id
remains. -/
def removeRetain (to_remove_set : List NamedUUID) (kv : String × NamespaceElement) : Option (String × NamespaceElement) :=
  match kv.2 with
  | NamespaceElement.Global g =>
    if to_remove_set.contains g then none else some (kv.1, NamespaceElement.Global g)
  | NamespaceElement.Colission colission =>
    let retain_vec := colission.filter (fun g => !(to_remove_set.contains g))
    if retain_vec.length > 0 then some (kv.1, NamespaceElement.Colission retain_vec) else none

/-- `Linker::remove_file_datas` (linker.rs): collects every entity id owned
by the removed files, frees those entities, then rebuilds the namespace
with `removeRetain`. -/
def Linker.remove_file_datas (l : Linker) (files : List FileUUID) : Linker :=
  let to_remove_set := removedIdSet l files
  let globals := to_remove_set.foldl ArenaAllocator.free l.globals
  let global_namespace := l.global_namespace.filterMap (removeRetain to_remove_set)
  { globals := globals, global_namespace := global_namespace, files := l.files }

/-- One namespace bucket's contribution to
`Linker::get_duplicate_declaration_errors` (linker.rs): for every member of
a `Colission` bucket that has a `LinkInfo` and lives in the queried file,
emit one error; the builtin member (no `LinkInfo`) switches the message to
the dedicated cannot-redeclare-builtin wording and contributes no info
label, every other user member contributes one "Conflicts with" label. -/
def duplicateErrorsForBucket (l : Linker) (file_uuid : FileUUID) (ec : ErrorCollector) (elem : NamespaceElement) : ErrorCollector :=
  match elem with
  | NamespaceElement.Global _ => ec
  | NamespaceElement.Colission colission =>
    let infos : List (Option LinkInfo) := colission.map (fun id => (l.globals.get? id).bind Named.get_link_info)
    infos.enum.foldl
      (fun ec p =>
        match p.2 with
        | none => ec
        | some info =>
          if info.file == file_uuid then
            let others := infos.enum.filter (fun q => q.1 ≠ p.1)
            let conflict_infos := others.filterMap (fun q => q.2)
            let builtin_conflict := others.any (fun q => q.2.isNone)
            let this_object_name := info.name
            let labels := conflict_infos.map (fun conf => error_info conf.name_span conf.file ("Conflicts with"))
            let reason := if builtin_conflict then
                "Cannot redeclare the builtin '" ++ this_object_name ++ "'"
              else
                "'" ++ this_object_name ++ "' conflicts with other declarations:"
            ec.error_with_info info.name_span reason labels
          else ec)
      ec

/-- `Linker::get_duplicate_declaration_errors` (linker.rs): folds the bucket
diagnostic over every namespace entry. -/
def Linker.get_duplicate_declaration_errors (l : Linker) (file_uuid : FileUUID) (ec : ErrorCollector) : ErrorCollector :=
  l.global_namespace.foldl (fun ec kv => duplicateErrorsForBucket l file_uuid ec kv.2) ec

end legacy

/-! ## The current resolver / pipeline generation

`src/linker/resolver.rs`, `src/typing/template.rs`, `src/compiler_top.rs`,
`src/flattening/name_context.rs`.  The new-generation `linker.rs` (entity
arenas split per kind, `LinkInfo` with checkpoints) is not part of the
excerpt; its pieces that these files read are modelled from the spec where
so marked. -/

namespace v2

/-- `GlobalUUID` (new-generation linker): an entity id, distinguishing the
Module/Type/Constant sub-arenas. -/
inductive GlobalUUID where
  | Module (id : Nat)
  | «Type» (id : Nat)
  | Constant (id : Nat)
deriving DecidableEq

/-- Modelled from the spec (§6 diagnostic shape): one secondary
(file, span, message) info label.  The new-generation `errors.rs` is not in
the excerpt. -/
structure ErrorInfo where
  position : SpanFile
  info : String
deriving DecidableEq

/-- Modelled from the spec (§6 diagnostic shape): primary message and
primary span plus the ordered secondary labels.  `ErrorReference::info`
(appending one label to a just-pushed error) is embedded by constructing
the error together with its labels. -/
structure CompileError where
  position : Span
  reason : String
  infos : List ErrorInfo
deriving DecidableEq

/-- `ErrorStore` (new-generation `errors.rs`, not in the excerpt): the
per-unit append-only list of collected diagnostics. -/
abbrev ErrorStore := List CompileError

/-- Modelled from the spec (§4.5): a unit is untouched when nothing was
collected since the store was last detached (`ErrorStore::take` leaves an
empty store behind). -/
def ErrorStore.is_untouched (e : ErrorStore) : Bool :=
  e.isEmpty

/-- `ResolvedGlobalsCheckpoint` (linker/checkpoint.rs, not in the excerpt):
read through its two positional fields in resolver.rs as
(dependency-count, completeness flag). -/
abbrev ResolvedGlobalsCheckpoint := Nat × Bool

/-- `ResolvedGlobals` (resolver.rs): the unit's dependency record. -/
structure ResolvedGlobals where
  referenced_globals : List GlobalUUID
  all_resolved : Bool
deriving DecidableEq

/-- `ResolvedGlobals::empty`. -/
def ResolvedGlobals.empty : ResolvedGlobals :=
  { referenced_globals := [], all_resolved := true }

/-- `ResolvedGlobals::take`: returns the current record, leaving `empty`. -/
def ResolvedGlobals.take (rg : ResolvedGlobals) : ResolvedGlobals × ResolvedGlobals :=
  (rg, ResolvedGlobals.empty)

/-- `ResolvedGlobals::is_untouched` (resolver.rs). -/
def ResolvedGlobals.is_untouched (rg : ResolvedGlobals) : Bool :=
  rg.referenced_globals.isEmpty && rg.all_resolved

/-- `ResolvedGlobals::reset_to` (resolver.rs). -/
def ResolvedGlobals.reset_to (rg : ResolvedGlobals) (checkpoint : ResolvedGlobalsCheckpoint) : ResolvedGlobals :=
  { referenced_globals := rg.referenced_globals.take checkpoint.1, all_resolved := checkpoint.2 }

/-- `ResolvedGlobals::checkpoint` (resolver.rs). -/
def ResolvedGlobals.checkpoint (rg : ResolvedGlobals) : ResolvedGlobalsCheckpoint :=
  (rg.referenced_globals.length, rg.all_resolved)

/-- Modelled from the spec (§3 Checkpoint): an (error-count,
dependency-snapshot) pair; `linker/checkpoint.rs` is not in the excerpt. -/
structure CheckPoint where
  num_errors : Nat
  resolved_globals_cp : ResolvedGlobalsCheckpoint
deriving DecidableEq

/-- `CheckPoint::checkpoint`: snapshot the sizes of the two stores. -/
def CheckPoint.checkpoint (errors : ErrorStore) (resolved_globals : ResolvedGlobals) : CheckPoint :=
  { num_errors := errors.length, resolved_globals_cp := resolved_globals.checkpoint }

/-- `TypeTemplateInputKind` (template.rs). -/
structure TypeTemplateInputKind where
deriving DecidableEq

/-- `GenerativeTemplateInputKind` (template.rs). `FlatID` is an opaque
flat-IR instruction index. -/
structure GenerativeTemplateInputKind where
  decl_span : Span
  declaration_instruction : Nat
deriving DecidableEq

/-- `TemplateInputKind` (template.rs). -/
inductive TemplateInputKind where
  | «Type» (k : TypeTemplateInputKind)
  | Generative (k : GenerativeTemplateInputKind)
deriving DecidableEq

/-- `TemplateInput` (template.rs): one declared generic formal. -/
structure TemplateInput where
  name : String
  name_span : Span
  kind : TemplateInputKind
deriving DecidableEq

/-- `ConcreteType` (typing/concrete_type.rs, not in the excerpt): opaque
payload; its structure is irrelevant to the linking core. -/
abbrev ConcreteType := Nat

/-- `TypedValue` (value.rs, not in the excerpt): opaque payload. -/
abbrev TypedValue := Nat

/-- `ConcreteTemplateArg` (template.rs): a resolved argument value at
instantiation time. -/
inductive ConcreteTemplateArg where
  | «Type» (t : ConcreteType)
  | Value (v : TypedValue)
  | NotProvided
deriving DecidableEq

/-- `LinkInfo` (new-generation linker.rs, not in the excerpt): restricted
to the fields read by resolver.rs / compiler_top.rs / template.rs — name,
owning file, name span, declared template parameters, the per-unit error
store, the dependency record and the checkpoint log. -/
structure LinkInfo where
  name : String
  file : FileUUID
  name_span : Span
  template_arguments : List TemplateInput
  errors : ErrorStore
  resolved_globals : ResolvedGlobals
  checkpoints : List CheckPoint
deriving DecidableEq

/-- `Linkable::get_full_name`: the name under the global root namespace. -/
def LinkInfo.get_full_name (li : LinkInfo) : String :=
  "::" ++ li.name

/-- `LinkInfo::get_span_file`. -/
def LinkInfo.get_span_file (li : LinkInfo) : SpanFile :=
  (li.name_span, li.file)

/-- `Module` (new generation), restricted to its `link_info` (its
instruction body and instantiation cache belong to out-of-scope stages). -/
structure Module where
  link_info : LinkInfo
deriving DecidableEq

/-- `StructType` (new generation), restricted to its `link_info`. -/
structure StructType where
  link_info : LinkInfo
deriving DecidableEq

/-- `NamedConstant` (new generation), restricted to its `link_info`. -/
structure NamedConstant where
  link_info : LinkInfo
deriving DecidableEq

/-- `NamespaceElement` over `GlobalUUID` (new-generation linker.rs):
same bucket shape as the legacy namespace. -/
inductive NamespaceElement where
  | Global (id : GlobalUUID)
  | Colission (ids : List GlobalUUID)
deriving DecidableEq

/-- The file text, embedded at the interface level `resolver.rs` uses it:
indexing by a `Span` yields the identifier text written there. -/
abbrev FileText := List (Span × String)

/-- `file_text[span]` (indexing a `FileText` by a span). -/
def fileTextAt (ft : FileText) (span : Span) : String :=
  ((ft.find? (fun p => p.1 == span)).map (fun p => p.2)).getD ""

/-- The syntax tree handed over by the external tree-sitter parser,
reduced to what declaration gathering reads from it: the list of
top-level declaration names.  (The tree is an opaque, read-only external
artifact — spec §6.) -/
abbrev SyntaxTree := List String

/-- `FileData` (new generation, declared in compiler_top.rs usage):
identifier, text, parse tree, owned entity ids, file-level parse errors. -/
structure FileData where
  file_identifier : String
  file_text : FileText
  tree : SyntaxTree
  associated_values : List GlobalUUID
  parsing_errors : ErrorStore
deriving DecidableEq

/-- `Linker` (new generation, not in the excerpt): per-kind entity arenas,
the global namespace, and the file registry — the fields resolver.rs and
compiler_top.rs read. -/
structure Linker where
  modules : ArenaAllocator Module
  types : ArenaAllocator StructType
  constants : ArenaAllocator NamedConstant
  global_namespace : List (String × NamespaceElement)
  files : ArenaAllocator FileData
deriving DecidableEq

/-- `HashMap::get` on the new-generation global namespace. -/
def nsGet (ns : List (String × NamespaceElement)) (name : String) : Option NamespaceElement :=
  (ns.find? (fun p => p.1 == name)).map (fun p => p.2)

/-- `Linker::get_link_info` (new generation): dereference an entity id to
its `LinkInfo`.  Dereferencing a freed/unfilled id is a fatal internal
error in the source, surfaced as `none` here. -/
def Linker.get_link_info (l : Linker) : GlobalUUID → Option LinkInfo
  | GlobalUUID.Module id => (l.modules.get? id).map (fun m => m.link_info)
  | GlobalUUID.«Type» id => (l.types.get? id).map (fun t => t.link_info)
  | GlobalUUID.Constant id => (l.constants.get? id).map (fun c => c.link_info)

/-- `LinkingErrorLocation` (resolver.rs). -/
structure LinkingErrorLocation where
  named_type : String
  full_name : String
  location : SpanFile
deriving DecidableEq

/-- `GlobalResolver::get_linking_error_location` (resolver.rs); it only
consults the shared linker, so it is embedded over `Linker`. -/
def Linker.get_linking_error_location (l : Linker) (global : GlobalUUID) : Option LinkingErrorLocation :=
  let named_type := match global with
    | GlobalUUID.Module _ => "Module"
    | GlobalUUID.«Type» _ => "Struct"
    | GlobalUUID.Constant _ => "Constant"
  (l.get_link_info global).map
    (fun link_info => ⟨named_type, link_info.get_full_name, link_info.get_span_file⟩)

/-- `GlobalResolver` (resolver.rs): bound to one unit for one stage; the
borrowed linker and file data are carried by value, the unit's error store
and dependency record are the mutable state. -/
structure GlobalResolver where
  linker : Linker
  file_data : FileData
  errors : ErrorStore
  resolved_globals : ResolvedGlobals
deriving DecidableEq

/-- `GlobalResolver::resolve_global` (resolver.rs lines 97–134): reads the
identifier at `name_span` from the unit's file text and looks it up.
A `Global` bucket succeeds and is recorded as a dependency; a `Colission`
bucket marks resolution incomplete and reports one colliding-imports error
with one "declared here" label per collider (a collider whose id does not
dereference would be a fatal internal error in the source — the `filterMap`
none-branch is dead for live buckets); an absent name marks resolution
incomplete and reports one not-found error.  Failure returns `none`
without aborting anything. -/
def GlobalResolver.resolve_global (gr : GlobalResolver) (name_span : Span) : Option GlobalUUID × GlobalResolver :=
  let name := fileTextAt gr.file_data.file_text name_span
  match nsGet gr.linker.global_namespace name with
  | some (NamespaceElement.Global found) =>
    (some found,
     { gr with resolved_globals :=
        { gr.resolved_globals with referenced_globals := gr.resolved_globals.referenced_globals ++ [found] } })
  | some (NamespaceElement.Colission coll) =>
    let err : CompileError :=
      { position := name_span,
        reason := "There were colliding imports for the name '" ++ name ++ "'. Pick one and import it by name.",
        infos := coll.filterMap
          (fun collider_global =>
            (gr.linker.get_linking_error_location collider_global).map
              (fun err_loc => ⟨err_loc.location, err_loc.named_type ++ " " ++ err_loc.full_name ++ " declared here"⟩)) }
    (none,
     { gr with resolved_globals := { gr.resolved_globals with all_resolved := false },
               errors := gr.errors ++ [err] })
  | none =>
    (none,
     { gr with resolved_globals := { gr.resolved_globals with all_resolved := false },
               errors := gr.errors ++
                 [{ position := name_span,
                    reason := "No Global of the name '" ++ name ++ "' was found. Did you forget to import it?",
                    infos := [] }] })

/-- `LinkInfo::reabsorb_errors_globals` (resolver.rs lines 188–203): the
three source `assert!`s are embedded as the `none` (fatal-failure)
branches; on success the detached state is stored back and one checkpoint
is appended. -/
def LinkInfo.reabsorb_errors_globals (li : LinkInfo) (eg : ErrorStore × ResolvedGlobals) (checkpoint_id : Nat) : Option LinkInfo :=
  if li.resolved_globals.is_untouched then
    if ErrorStore.is_untouched li.errors then
      if li.checkpoints.length = checkpoint_id then
        some { li with resolved_globals := eg.2, errors := eg.1,
                       checkpoints := li.checkpoints ++ [CheckPoint.checkpoint eg.1 eg.2] }
      else none
    else none
  else none

/-- The `not_found_list` of `check_all_template_args_valid` (template.rs):
the declared formals whose slot is still `NotProvided`.  The two `FlatAlloc`s
share one id space, so the formal list and the argument tuple are aligned
positionally by `zip`. -/
def missingTemplateArgs (target_link_info : LinkInfo) (template_args : List ConcreteTemplateArg) : List TemplateInput :=
  (target_link_info.template_arguments.zip template_args).filterMap
    (fun p => match p.2 with
              | ConcreteTemplateArg.NotProvided => some p.1
              | _ => none)

/-- The `uncovered_ports_list` string of `check_all_template_args_valid`:
each missing name quoted and comma-separated, the trailing ", " cut off. -/
def uncoveredPortsList (not_found_list : List TemplateInput) : String :=
  (String.join (not_found_list.map (fun v => "'" ++ v.name ++ "', "))).dropRight 2

/-- `check_all_template_args_valid` (template.rs lines 123–157): collects
every still-`NotProvided` formal; if any, emits exactly one error naming
the target and all missing formals, with one "defined here" label per
missing formal, and returns failure. -/
def check_all_template_args_valid (errors : ErrorStore) (span : Span) (target_link_info : LinkInfo) (template_args : List ConcreteTemplateArg) : Bool × ErrorStore :=
  let not_found_list := missingTemplateArgs target_link_info template_args
  if not_found_list.isEmpty then (true, errors)
  else
    (false, errors ++
      [{ position := span,
         reason := "Could not instantiate " ++ target_link_info.get_full_name
           ++ " because the template arguments " ++ uncoveredPortsList not_found_list
           ++ " were missing and no default was provided",
         infos := not_found_list.map
           (fun v => ⟨(v.name_span, target_link_info.file), "'" ++ v.name ++ "' defined here"⟩) }])

end v2

namespace v2

/-- Modelled from the spec (§4.2 declare): the new-generation
`Linker::add_name` lives in the new `linker.rs`, which is not in the
excerpt; it performs the same bucket update as the legacy `add_name`
embedded above (vacant → `Global`, `Global g` → `Colission [g, new]`,
`Colission` → append). -/
def addNameG : List (String × NamespaceElement) → String → GlobalUUID → List (String × NamespaceElement)
  | [], name, id => [(name, NamespaceElement.Global id)]
  | (k, v) :: rest, name, id =>
    if k == name then
      (k, match v with
          | NamespaceElement.Global g => NamespaceElement.Colission [g, id]
          | NamespaceElement.Colission coll => NamespaceElement.Colission (coll ++ [id])) :: rest
    else
      (k, v) :: addNameG rest name id

/-- The per-declaration step of declaration gathering: allocates a module
entity for each declared name, registers it in the global namespace and
collects its id. -/
def gatherDecls (file_id : FileUUID) (acc : Linker × List GlobalUUID) : List String → Linker × List GlobalUUID
  | [] => acc
  | name :: rest =>
    let li : LinkInfo :=
      { name := name, file := file_id, name_span := (0, 0), template_arguments := [],
        errors := [], resolved_globals := ResolvedGlobals.empty,
        checkpoints := [CheckPoint.checkpoint [] ResolvedGlobals.empty] }
    let all := acc.1.modules.alloc { link_info := li }
    gatherDecls file_id
      ({ acc.1 with modules := all.1,
                    global_namespace := addNameG acc.1.global_namespace name (GlobalUUID.Module all.2) },
       acc.2 ++ [GlobalUUID.Module all.2])
      rest

/-- Modelled from the spec (§4.7 add_file): `gather_initial_file_data`
(crate::flattening, not in the excerpt) runs declaration gathering for one
file — for every declaration name in the parse tree it allocates a module
entity, registers the name in the global namespace, records the id in the
file's `associated_values`, and binds the unit's initial checkpoint. -/
def gather_initial_file_data (l : Linker) (file_id : FileUUID) : Linker :=
  match l.files.get? file_id with
  | none => l
  | some fd =>
    let res := gatherDecls file_id (l, []) fd.tree
    { res.1 with files := res.1.files.alloc_reservation file_id { fd with associated_values := res.2 } }

/-- `Linker::add_file` (compiler_top.rs lines 15–43): first a fatal
assertion that no registered file already carries `file_identifier` —
embedded as the `none` branch, taken before any state is touched.  The
tree-sitter parse is performed by the external parser, so the resulting
`tree` is taken as an input (spec §6).  On the fresh-identifier path a file
id is reserved, the `FileData` is filled in, declaration gathering runs,
and the new id is returned. -/
def Linker.add_file (l : Linker) (file_identifier : String) (text : FileText) (tree : SyntaxTree) : Option (Linker × FileUUID) :=
  if l.files.slots.any (fun s => match s with
                                 | some fd => fd.file_identifier == file_identifier
                                 | none => false) then
    none
  else
    let r := l.files.reserve
    let files := r.1.alloc_reservation r.2
      { file_identifier := file_identifier, file_text := text, tree := tree,
        associated_values := [], parsing_errors := [] }
    some (gather_initial_file_data { l with files := files } r.2, r.2)

/-- One pipeline-stage event of `Linker::recompile_all` for the module at a
given index of the module list. -/
inductive StageEvent where
  | Reset (module_idx : Nat)
  | Flatten (module_idx : Nat)
  | Typecheck (module_idx : Nat)
  | Instantiate (module_idx : Nat)
deriving DecidableEq

/-- Modelled from the spec (§4.7): `flatten_all_modules`
(crate::flattening, not in the excerpt) runs the Flatten stage over every
module; its stage-event trace. -/
def flatten_all_modules_trace (n : Nat) : List StageEvent :=
  (List.range n).map StageEvent.Flatten

/-- Modelled from the spec (§4.7): `typecheck_all_modules`
(crate::flattening, not in the excerpt) runs the AbstractTypecheck stage
over every module; its stage-event trace. -/
def typecheck_all_modules_trace (n : Nat) : List StageEvent :=
  (List.range n).map StageEvent.Typecheck

/-- Whether the module at index `i` is eagerly instantiated by
`recompile_all`: exactly the modules declared with no template
parameters (compiler_top.rs line 108). -/
def eagerlyInstantiated (modules : List Module) (i : Nat) : Bool :=
  match modules.get? i with
  | some md => md.link_info.template_arguments.isEmpty
  | none => false

/-- The stage-event trace of `Linker::recompile_all` (compiler_top.rs
lines 66–113): first every module is reset to its
post-initial-parse checkpoint, then `flatten_all_modules`, then
`typecheck_all_modules`, then the eager-instantiation loop over exactly
the modules without template parameters, in module order. -/
def recompile_all_trace (modules : List Module) : List StageEvent :=
  (List.range modules.length).map StageEvent.Reset
    ++ flatten_all_modules_trace modules.length
    ++ typecheck_all_modules_trace modules.length
    ++ ((List.range modules.length).filter (eagerlyInstantiated modules)).map StageEvent.Instantiate

end v2

/-- `LocalVariableContext` (flattening/name_context.rs): the frame-scoped
stack of local declarations, generic over the id type. -/
structure LocalVariableContext (IdT : Type) where
  local_stack : List (String × IdT)
  current_frame_starts_at : Nat
deriving DecidableEq

/-- `LocalVariableContext::get_declaration_for` (name_context.rs): walks
the stack from the most recent entry down and returns the first binding of
`name`. -/
def LocalVariableContext.get_declaration_for {IdT : Type} (ctx : LocalVariableContext IdT) (name : String) : Option IdT :=
  (ctx.local_stack.reverse.find? (fun p => p.1 == name)).map (fun p => p.2)

/-- `LocalVariableContext::add_declaration` (name_context.rs): scans the
whole `local_stack` — all frames, not just the current one — and rejects
the declaration with the first conflicting binding's id; otherwise pushes
the new binding. -/
def LocalVariableContext.add_declaration {IdT : Type} (ctx : LocalVariableContext IdT) (new_local_name : String) (new_local_unique_id : IdT) : Except IdT (LocalVariableContext IdT) :=
  match ctx.local_stack.find? (fun p => p.1 == new_local_name) with
  | some p => Except.error p.2
  | none => Except.ok { ctx with local_stack := ctx.local_stack ++ [(new_local_name, new_local_unique_id)] }

/-- `LocalVariableContext::new_initial` (name_context.rs). -/
def LocalVariableContext.new_initial {IdT : Type} : LocalVariableContext IdT :=
  { local_stack := [], current_frame_starts_at := 0 }

/-- `LocalVariableContext::new_frame` (name_context.rs): records the
current stack depth as the new frame start and returns it. -/
def LocalVariableContext.new_frame {IdT : Type} (ctx : LocalVariableContext IdT) : Nat × LocalVariableContext IdT :=
  (ctx.local_stack.length, { ctx with current_frame_starts_at := ctx.local_stack.length })

/-- `LocalVariableContext::pop_frame` (name_context.rs): the source
`assert!(current_frame_starts_at >= prev_save)` is the `none` branch; on
success the stack is truncated back to the saved depth. -/
def LocalVariableContext.pop_frame {IdT : Type} (ctx : LocalVariableContext IdT) (prev_save : Nat) : Option (LocalVariableContext IdT) :=
  if ctx.current_frame_starts_at ≥ prev_save then
    some { local_stack := ctx.local_stack.take prev_save, current_frame_starts_at := prev_save }
  else none

/-- Running a sequence of `add_declaration`s, dropping the rejected ones
(the source caller reports the conflict and carries on). -/
def applyDecls {IdT : Type} (ctx : LocalVariableContext IdT) : List (String × IdT) → LocalVariableContext IdT
  | [] => ctx
  | d :: ds =>
    match ctx.add_declaration d.1 d.2 with
    | Except.ok ctx2 => applyDecls ctx2 ds
    | Except.error _ => applyDecls ctx ds

/-! ## Concrete example states used by counterexamples and witnesses -/

namespace legacy

/-- Two files, each declaring a module named `Point`; the namespace holds
the collision bucket `Colission [0, 1]`.  File 1 owns entity 1. -/
def exLinkerC2 : Linker :=
  { globals := ⟨[some (Named.Module ⟨⟨"Point", 0, (0, 5)⟩⟩), some (Named.Module ⟨⟨"Point", 1, (0, 5)⟩⟩)]⟩,
    global_namespace := [("Point", NamespaceElement.Colission [0, 1])],
    files := ⟨[some ⟨"", ⟨[], 0⟩, [0]⟩, some ⟨"", ⟨[], 1⟩, [1]⟩]⟩ }

/-- A fresh `Linker::new` (builtins `bool`/`int`/`true`/`false` at ids
0–3) after a user file declared a module named `bool` (allocated as
entity 4 and registered in the namespace). -/
def exLinkerC3 : Linker :=
  let l := Linker.new
  let r := l.globals.alloc (Named.Module ⟨⟨"bool", 0, (10, 14)⟩⟩)
  Linker.add_name { l with globals := r.1 } ("bool") r.2

end legacy

/-- A resolver bound to a file whose text contains `Point` at span (0,5),
`x` at span (7,8) and `zzz` at span (9,12); the linker's namespace has a
two-way collision on `Point` and a direct entry for `x`. -/
def exResolverC1 : v2.GlobalResolver :=
  { linker :=
      { modules := ⟨[some ⟨⟨"Point", 0, (0, 5), [], [], v2.ResolvedGlobals.empty, []⟩⟩,
                     some ⟨⟨"Point", 1, (3, 8), [], [], v2.ResolvedGlobals.empty, []⟩⟩]⟩,
        types := ⟨[]⟩, constants := ⟨[]⟩,
        global_namespace :=
          [("Point", v2.NamespaceElement.Colission [v2.GlobalUUID.Module 0, v2.GlobalUUID.Module 1]),
           ("x", v2.NamespaceElement.Global (v2.GlobalUUID.Module 0))],
        files := ⟨[]⟩ },
    file_data :=
      { file_identifier := "c.sus", file_text := [((0, 5), "Point"), ((7, 8), "x"), ((9, 12), "zzz")],
        tree := [], associated_values := [], parsing_errors := [] },
    errors := [], resolved_globals := v2.ResolvedGlobals.empty }

/-- A module list for the recompile trace: module 0 has no template
parameters, module 1 has one. -/
def exModulesC6 : List v2.Module :=
  [⟨⟨"m0", 0, (0, 2), [], [], v2.ResolvedGlobals.empty, []⟩⟩,
   ⟨⟨"m1", 0, (0, 2), [⟨"T", (3, 4), v2.TemplateInputKind.«Type» ⟨⟩⟩], [], v2.ResolvedGlobals.empty, []⟩⟩]

/-- A linker whose file registry already holds a file identified `a.sus`. -/
def exLinkerC10 : v2.Linker :=
  { modules := ⟨[]⟩, types := ⟨[]⟩, constants := ⟨[]⟩, global_namespace := [],
    files := ⟨[some { file_identifier := "a.sus", file_text := [], tree := [],
                      associated_values := [], parsing_errors := [] }]⟩ }

/-- A local-variable context with `x` bound (to id 0) in the outer frame. -/
def exCtxC9 : LocalVariableContext Nat :=
  { local_stack := [("x", 0)], current_frame_starts_at := 0 }

/-- A target `LinkInfo` (in file 7) declaring two type template formals
`A` and `B`. -/
def exLinkInfoC4 : v2.LinkInfo :=
  { name := "Target", file := 7, name_span := (0, 6),
    template_arguments :=
      [⟨"A", (1, 2), v2.TemplateInputKind.«Type» ⟨⟩⟩, ⟨"B", (3, 4), v2.TemplateInputKind.«Type» ⟨⟩⟩],
    errors := [], resolved_globals := v2.ResolvedGlobals.empty, checkpoints := [] }

/-- A unit `LinkInfo` that is untouched (detached) with two checkpoints
already bound. -/
def exLinkInfoC5 : v2.LinkInfo :=
  { name := "m", file := 0, name_span := (0, 1), template_arguments := [],
    errors := [], resolved_globals := v2.ResolvedGlobals.empty,
    checkpoints := [⟨0, (0, true)⟩, ⟨0, (0, true)⟩] }

/-! ## Theorems -/

namespace legacy

/-- Helper: the bucket returned for `name` after `addNameNS`. -/
theorem nsGet_addNameNS (ns : GlobalNamespace) (name : String) (id : NamedUUID) :
    nsGet (addNameNS ns name id) name =
      some (match nsGet ns name with
            | none => NamespaceElement.Global id
            | some (NamespaceElement.Global g) => NamespaceElement.Colission [g, id]
            | some (NamespaceElement.Colission coll) => NamespaceElement.Colission (coll ++ [id])) := by
  induction ns with
  | nil => simp [addNameNS, nsGet]
  | cons kv rest ih =>
    obtain ⟨k, v⟩ := kv
    cases h : (k == name) with
    | true =>
      cases v <;> simp [addNameNS, nsGet, h, List.find?]
    | false =>
      simpa [addNameNS, nsGet, h, List.find?] using ih

/-- C7: `Linker::add_name` evolves exactly the looked-up bucket — an
unused name becomes `Global id` (Single), a `Global g` bucket becomes the
ordered collision `Colission [g, id]`, and a `Colission` bucket has the new
id appended at the end; no existing binding is overwritten. -/
theorem add_name_spec (l : Linker) (name : String) (id : NamedUUID) :
    nsGet (l.add_name name id).global_namespace name =
      some (match nsGet l.global_namespace name with
            | none => NamespaceElement.Global id
            | some (NamespaceElement.Global g) => NamespaceElement.Colission [g, id]
            | some (NamespaceElement.Colission coll) => NamespaceElement.Colission (coll ++ [id])) := by
  simpa [Linker.add_name] using nsGet_addNameNS l.global_namespace name id

end legacy

namespace legacy

/-- Helper: `removeRetain` never changes an entry's key. -/
theorem removeRetain_key (tr : List NamedUUID) (kv r : String × NamespaceElement)
    (h : removeRetain tr kv = some r) : r.1 = kv.1 := by
  obtain ⟨k, v⟩ := kv
  cases v with
  | Global g =>
    simp only [removeRetain] at h
    split at h
    · cases h
    · cases h
      rfl
  | Colission coll =>
    simp only [removeRetain] at h
    split at h
    · cases h
      rfl
    · cases h

/-- Helper: a name absent from an assoc list stays absent after
`filterMap (removeRetain tr)`. -/
theorem nsGet_filterMap_removeRetain_none (ns : GlobalNamespace) (tr : List NamedUUID) (name : String)
    (h : nsGet ns name = none) :
    nsGet (ns.filterMap (removeRetain tr)) name = none := by
  induction ns with
  | nil => simp [nsGet]
  | cons kv rest ih =>
    have hk : (kv.1 == name) = false := by
      cases hx : (kv.1 == name) with
      | true => simp [nsGet, List.find?, hx] at h
      | false => rfl
    have hrest : nsGet rest name = none := by
      simpa [nsGet, List.find?, hk] using h
    rw [List.filterMap_cons]
    cases hr : removeRetain tr kv with
    | none => exact ih hrest
    | some r =>
      have hrk : (r.1 == name) = false := by
        rw [removeRetain_key tr kv r hr]; exact hk
      simpa [nsGet, List.find?, hrk] using ih hrest

/-- Helper: the bucket returned for `name` after the namespace rebuild of
`remove_file_datas`, for a namespace with unique keys. -/
theorem nsGet_filterMap_removeRetain (ns : GlobalNamespace) (tr : List NamedUUID) (name : String)
    (hnd : (ns.map Prod.fst).Nodup) :
    nsGet (ns.filterMap (removeRetain tr)) name =
      (nsGet ns name).bind (fun v => (removeRetain tr (name, v)).map (fun p => p.2)) := by
  induction ns with
  | nil => simp [nsGet]
  | cons kv rest ih =>
    obtain ⟨k, v⟩ := kv
    rw [List.map_cons, List.nodup_cons] at hnd
    obtain ⟨hknotin, hndrest⟩ := hnd
    cases h : (k == name) with
    | true =>
      have hkeq : k = name := eq_of_beq h
      subst hkeq
      have horig : nsGet ((k, v) :: rest) k = some v := by
        simp [nsGet, List.find?]
      rw [horig, Option.some_bind]
      rw [List.filterMap_cons]
      cases hr : removeRetain tr (k, v) with
      | none =>
        have hrestnone : nsGet rest k = none := by
          apply Option.map_eq_none.mpr
          apply List.find?_eq_none.mpr
          intro x hx hpx
          have hx1 : x.1 = k := eq_of_beq hpx
          exact hknotin (List.mem_map.mpr ⟨x, hx, hx1⟩)
        simpa using nsGet_filterMap_removeRetain_none rest tr k hrestnone
      | some r =>
        have hrk : (r.1 == k) = true := by
          rw [removeRetain_key tr (k, v) r hr]; exact beq_self_eq_true k
        simp [nsGet, List.find?, hrk]
    | false =>
      have horig : nsGet ((k, v) :: rest) name = nsGet rest name := by
        simp [nsGet, List.find?, h]
      rw [horig]
      rw [List.filterMap_cons]
      cases hr : removeRetain tr (k, v) with
      | none => exact ih hndrest
      | some r =>
        have hrk : (r.1 == name) = false := by
          rw [removeRetain_key tr (k, v) r hr]; exact h
        rw [← ih hndrest]
        show nsGet (r :: rest.filterMap (removeRetain tr)) name = _
        simp [nsGet, List.find?, hrk]

end legacy

namespace legacy

/-- C2 (amended): `remove_file_datas` rebuilds every touched bucket by
filtering out the removed ids; a `Global` bucket whose id was removed and
any bucket left with zero ids are deleted; but a `Colission` bucket left
with one or more ids always stays a `Colission` — it never degrades back
to `Global`, so a surviving sole declaration's name still does not resolve
directly. -/
theorem remove_file_datas_spec (l : Linker) (files : List FileUUID) (name : String)
    (hnd : (l.global_namespace.map Prod.fst).Nodup) :
    nsGet (l.remove_file_datas files).global_namespace name =
      match nsGet l.global_namespace name with
      | none => none
      | some (NamespaceElement.Global g) =>
        if (removedIdSet l files).contains g then none else some (NamespaceElement.Global g)
      | some (NamespaceElement.Colission coll) =>
        if (coll.filter (fun g => !((removedIdSet l files).contains g))).length > 0 then
          some (NamespaceElement.Colission (coll.filter (fun g => !((removedIdSet l files).contains g))))
        else none := by
  have h := nsGet_filterMap_removeRetain l.global_namespace (removedIdSet l files) name hnd
  show nsGet (l.global_namespace.filterMap (removeRetain (removedIdSet l files))) name = _
  rw [h]
  cases nsGet l.global_namespace name with
  | none => rfl
  | some v =>
    cases v with
    | Global g =>
      show Option.map _ (removeRetain _ (name, NamespaceElement.Global g)) = _
      simp only [removeRetain]
      split <;> simp_all
    | Colission coll =>
      show Option.map _ (removeRetain _ (name, NamespaceElement.Colission coll)) = _
      simp only [removeRetain]
      split <;> simp_all

/-- C2 counterexample: in `exLinkerC2` (`Point` collides between entities
0 and 1, file 1 owning entity 1), removing file 1 leaves the bucket as
`Colission [0]` — not `Global 0` as the claim states — and
`get_obj_by_name` consequently fails to resolve the surviving
declaration. -/
theorem remove_collision_no_degrade_cex :
    nsGet (exLinkerC2.remove_file_datas [1]).global_namespace ("Point")
        = some (NamespaceElement.Colission [0])
      ∧ (exLinkerC2.remove_file_datas [1]).get_obj_by_name ("Point") = none := by
  constructor <;> rfl

/-- Witness for `remove_file_datas_spec` at the concrete `exLinkerC2`. -/
theorem remove_file_datas_spec_witness :
    nsGet (exLinkerC2.remove_file_datas [1]).global_namespace ("Point")
      = some (NamespaceElement.Colission [0]) := by
  have h := remove_file_datas_spec exLinkerC2 [1] ("Point") (by decide)
  rw [h]
  rfl

/-- Helper: a fold whose step never drops collected errors never drops
collected errors. -/
theorem foldl_errors_mono {α : Type} (step : ErrorCollector → α → ErrorCollector)
    (hstep : ∀ (ec : ErrorCollector) (x : α) (e : ParsingError), e ∈ ec.errors → e ∈ (step ec x).errors)
    (xs : List α) (ec : ErrorCollector) (e : ParsingError) (he : e ∈ ec.errors) :
    e ∈ (xs.foldl step ec).errors := by
  induction xs generalizing ec with
  | nil => exact he
  | cons x xs ih => exact ih _ (hstep ec x e he)

/-- Helper: the fold of the per-bucket diagnostic never drops collected
errors. -/
theorem duplicateErrorsForBucket_mono (l : Linker) (f : FileUUID) (elem : NamespaceElement)
    (ec : ErrorCollector) (e : ParsingError) (he : e ∈ ec.errors) :
    e ∈ (duplicateErrorsForBucket l f ec elem).errors := by
  cases elem with
  | Global g => exact he
  | Colission colission =>
    apply foldl_errors_mono
    · intro ec2 x e2 he2
      rcases x with ⟨idx, oinfo⟩
      cases oinfo with
      | none => exact he2
      | some info =>
        dsimp only
        split
        · simp only [ErrorCollector.error_with_info, List.mem_append]
          exact Or.inl he2
        · exact he2
    · exact he

/-- Helper: errors survive the whole-namespace fold of
`get_duplicate_declaration_errors`. -/
theorem foldl_duplicateErrors_mono (l : Linker) (f : FileUUID) (ns : GlobalNamespace)
    (ec : ErrorCollector) (e : ParsingError) (he : e ∈ ec.errors) :
    e ∈ (ns.foldl (fun ec kv => duplicateErrorsForBucket l f ec kv.2) ec).errors := by
  induction ns generalizing ec with
  | nil => exact he
  | cons kv rest ih => exact ih _ (duplicateErrorsForBucket_mono l f kv.2 ec e he)

/-- Helper: an error produced by some bucket of the namespace is reported
by `get_duplicate_declaration_errors`. -/
theorem mem_get_duplicate_declaration_errors_of_bucket (l : Linker) (f : FileUUID)
    (ec : ErrorCollector) (entry : String × NamespaceElement)
    (hmem : entry ∈ l.global_namespace) (e : ParsingError)
    (hadd : ∀ ec2 : ErrorCollector, e ∈ (duplicateErrorsForBucket l f ec2 entry.2).errors) :
    e ∈ (l.get_duplicate_declaration_errors f ec).errors := by
  unfold Linker.get_duplicate_declaration_errors
  revert hmem
  generalize l.global_namespace = ns
  intro hmem
  induction ns generalizing ec with
  | nil => cases hmem
  | cons kv rest ih =>
    rw [List.foldl_cons]
    rcases List.mem_cons.mp hmem with heq | hrest
    · subst heq
      exact foldl_duplicateErrors_mono l f rest _ e (hadd ec)
    · exact ih _ hrest

/-- Helper: the per-bucket diagnostic for a two-member collision between a
builtin (no `LinkInfo`) and a user declaration of file `f` is exactly one
dedicated cannot-redeclare-builtin error at the user declaration, with no
info labels. -/
theorem duplicateErrorsForBucket_builtin (l : Linker) (f : FileUUID) (ec : ErrorCollector)
    (b u : NamedUUID) (nm : String) (sp : Span)
    (hb : (l.globals.get? b).bind Named.get_link_info = none)
    (hu : (l.globals.get? u).bind Named.get_link_info = some ⟨nm, f, sp⟩) :
    duplicateErrorsForBucket l f ec (NamespaceElement.Colission [b, u]) =
      ec.error_with_info sp ("Cannot redeclare the builtin '" ++ nm ++ "'") [] := by
  unfold duplicateErrorsForBucket
  simp [hb, hu, List.enum, List.enumFrom, List.foldl, ErrorCollector.error_with_info]

end legacy

namespace legacy

/-- C3 (amended): a collision bucket pairing a builtin (no `LinkInfo`)
with a user declaration makes the session report the dedicated
"Cannot redeclare the builtin" error (not the ordinary collision message)
at the user declaration; however the builtin does not remain directly
resolvable — the bucket is now a `Colission`, so both `get_obj_id` and
`get_obj_by_name` return `none` for that name rather than the builtin's
id. -/
theorem redeclared_builtin_spec (l : Linker) (ec : ErrorCollector) (name nm : String)
    (b u : NamedUUID) (f : FileUUID) (sp : Span)
    (hns : nsGet l.global_namespace name = some (NamespaceElement.Colission [b, u]))
    (hb : (l.globals.get? b).bind Named.get_link_info = none)
    (hu : (l.globals.get? u).bind Named.get_link_info = some ⟨nm, f, sp⟩) :
    (⟨sp, "Cannot redeclare the builtin '" ++ nm ++ "'", []⟩ : ParsingError)
        ∈ (l.get_duplicate_declaration_errors f ec).errors
      ∧ l.get_obj_id name = none ∧ l.get_obj_by_name name = none := by
  refine ⟨?_, ?_, ?_⟩
  · obtain ⟨pr, hfind, hpr2⟩ := Option.map_eq_some'.mp hns
    apply mem_get_duplicate_declaration_errors_of_bucket l f ec pr (List.mem_of_find?_eq_some hfind)
    intro ec2
    rw [hpr2, duplicateErrorsForBucket_builtin l f ec2 b u nm sp hb hu]
    simp [ErrorCollector.error_with_info]
  · unfold Linker.get_obj_id
    rw [hns]
  · unfold Linker.get_obj_by_name
    rw [hns]

/-- C3 counterexample: after a user file declares a module named `bool`
(`exLinkerC3`), the builtin `bool` — entity 0, as `get_builtin_type`
confirms — is no longer directly resolvable: the bucket is now a
collision, so lookups return `none` where the claim requires the
builtin's id. -/
theorem builtin_not_resolvable_cex :
    get_builtin_type ("bool") = some 0
      ∧ exLinkerC3.get_obj_id ("bool") = none
      ∧ exLinkerC3.get_obj_by_name ("bool") = none := by
  exact ⟨rfl, rfl, rfl⟩

/-- Witness for `redeclared_builtin_spec`: the concrete session
`exLinkerC3` reports the dedicated builtin-redeclaration error at the user
declaration of `bool`, and the name no longer resolves. -/
theorem redeclared_builtin_spec_witness :
    (⟨(10, 14), "Cannot redeclare the builtin '" ++ "bool" ++ "'", []⟩ : ParsingError)
        ∈ (exLinkerC3.get_duplicate_declaration_errors 0 ⟨[], 0⟩).errors
      ∧ exLinkerC3.get_obj_id ("bool") = none
      ∧ exLinkerC3.get_obj_by_name ("bool") = none :=
  redeclared_builtin_spec exLinkerC3 ⟨[], 0⟩ ("bool") ("bool") 0 4 0 (10, 14) (by rfl) (by rfl) (by rfl)

end legacy

namespace v2

/-- Helper: when every collider id dereferences, the collision error's
label list pairs up with the collider list one-to-one, in order. -/
theorem filterMap_loc_forall2 (L : Linker) (coll : List GlobalUUID)
    (h : ∀ g ∈ coll, (L.get_link_info g).isSome = true) :
    List.Forall₂
      (fun g info => ∃ loc, L.get_linking_error_location g = some loc
          ∧ info = (⟨loc.location, loc.named_type ++ " " ++ loc.full_name ++ " declared here"⟩ : ErrorInfo))
      coll
      (coll.filterMap (fun g => (L.get_linking_error_location g).map
        (fun loc => ⟨loc.location, loc.named_type ++ " " ++ loc.full_name ++ " declared here"⟩))) := by
  induction coll with
  | nil => simp
  | cons g rest ih =>
    have hg := h g (List.mem_cons_self g rest)
    have hex : ∃ loc, L.get_linking_error_location g = some loc := by
      obtain ⟨li, hli⟩ := Option.isSome_iff_exists.mp hg
      exact ⟨_, by unfold Linker.get_linking_error_location; rw [hli]; rfl⟩
    obtain ⟨loc, hloc⟩ := hex
    rw [List.filterMap_cons, hloc]
    exact List.Forall₂.cons ⟨loc, hloc, rfl⟩ (ih (fun g2 hg2 => h g2 (List.mem_cons_of_mem g hg2)))

/-- C1: `resolve_global` succeeds exactly on a `Global` (Single) bucket
for the identifier text at the span, in which case the id is appended to
the unit's dependency set and nothing else changes; on an absent name it
returns `none`, clears `all_resolved` and appends exactly one not-found
error; on a `Colission` bucket of live ids it returns `none`, clears
`all_resolved` and appends exactly one colliding-imports error whose info
labels enumerate each colliding declaration's location exactly once, in
bucket order.  It never aborts: it is a total function into `Option`. -/
theorem resolve_global_spec (gr : GlobalResolver) (name_span : Span) :
    (∀ id, (gr.resolve_global name_span).1 = some id ↔
        nsGet gr.linker.global_namespace (fileTextAt gr.file_data.file_text name_span)
          = some (NamespaceElement.Global id))
    ∧ (∀ id, (gr.resolve_global name_span).1 = some id →
        (gr.resolve_global name_span).2.resolved_globals.referenced_globals
            = gr.resolved_globals.referenced_globals ++ [id]
          ∧ (gr.resolve_global name_span).2.resolved_globals.all_resolved = gr.resolved_globals.all_resolved
          ∧ (gr.resolve_global name_span).2.errors = gr.errors)
    ∧ (nsGet gr.linker.global_namespace (fileTextAt gr.file_data.file_text name_span) = none →
        (gr.resolve_global name_span).1 = none
          ∧ (gr.resolve_global name_span).2.resolved_globals.all_resolved = false
          ∧ (gr.resolve_global name_span).2.resolved_globals.referenced_globals
              = gr.resolved_globals.referenced_globals
          ∧ (gr.resolve_global name_span).2.errors = gr.errors ++
              [⟨name_span,
                "No Global of the name '" ++ fileTextAt gr.file_data.file_text name_span
                  ++ "' was found. Did you forget to import it?", []⟩])
    ∧ (∀ coll, nsGet gr.linker.global_namespace (fileTextAt gr.file_data.file_text name_span)
          = some (NamespaceElement.Colission coll) →
        (∀ g ∈ coll, (gr.linker.get_link_info g).isSome = true) →
        (gr.resolve_global name_span).1 = none
          ∧ (gr.resolve_global name_span).2.resolved_globals.all_resolved = false
          ∧ (gr.resolve_global name_span).2.resolved_globals.referenced_globals
              = gr.resolved_globals.referenced_globals
          ∧ ∃ err : CompileError, (gr.resolve_global name_span).2.errors = gr.errors ++ [err]
              ∧ err.position = name_span
              ∧ err.reason = "There were colliding imports for the name '"
                  ++ fileTextAt gr.file_data.file_text name_span
                  ++ "'. Pick one and import it by name."
              ∧ err.infos.length = coll.length
              ∧ List.Forall₂
                  (fun g info => ∃ loc, gr.linker.get_linking_error_location g = some loc
                      ∧ info = (⟨loc.location, loc.named_type ++ " " ++ loc.full_name ++ " declared here"⟩ : ErrorInfo))
                  coll err.infos) := by
  cases h : nsGet gr.linker.global_namespace (fileTextAt gr.file_data.file_text name_span) with
  | none =>
    refine ⟨?_, ?_, ?_, ?_⟩
    · intro id
      simp [GlobalResolver.resolve_global, h]
    · intro id hid
      simp [GlobalResolver.resolve_global, h] at hid
    · intro hnone
      simp [GlobalResolver.resolve_global, h]
    · intro coll hcoll
      cases hcoll
  | some v =>
    cases v with
    | Global found =>
      refine ⟨?_, ?_, ?_, ?_⟩
      · intro id
        simp [GlobalResolver.resolve_global, h]
      · intro id hid
        have hfound : found = id := by
          simpa [GlobalResolver.resolve_global, h] using hid
        subst hfound
        refine ⟨?_, ?_, ?_⟩ <;> simp [GlobalResolver.resolve_global, h]
      · intro hnone
        cases hnone
      · intro coll hcoll
        cases hcoll
    | Colission coll0 =>
      refine ⟨?_, ?_, ?_, ?_⟩
      · intro id
        simp [GlobalResolver.resolve_global, h]
      · intro id hid
        simp [GlobalResolver.resolve_global, h] at hid
      · intro hnone
        cases hnone
      · intro coll hcoll hlive
        injection hcoll with hcoll2
        injection hcoll2 with hcoll3
        subst hcoll3
        refine ⟨?_, ?_, ?_, ?_⟩
        · simp [GlobalResolver.resolve_global, h]
        · simp [GlobalResolver.resolve_global, h]
        · simp [GlobalResolver.resolve_global, h]
        · refine ⟨⟨name_span,
              "There were colliding imports for the name '"
                ++ fileTextAt gr.file_data.file_text name_span
                ++ "'. Pick one and import it by name.",
              coll0.filterMap (fun g => (gr.linker.get_linking_error_location g).map
                (fun loc => ⟨loc.location, loc.named_type ++ " " ++ loc.full_name ++ " declared here"⟩))⟩,
            ?_, rfl, rfl, ?_, ?_⟩
          · simp [GlobalResolver.resolve_global, h]
          · exact (List.Forall₂.length_eq (filterMap_loc_forall2 gr.linker coll0 hlive)).symm
          · exact filterMap_loc_forall2 gr.linker coll0 hlive

end v2

/-- Witness for `v2.resolve_global_spec` at `exResolverC1`: the span over
`Point` (a two-way collision) fails and marks resolution incomplete, and
the span over `x` (a Single bucket) resolves to module 0. -/
theorem resolve_global_spec_witness :
    (exResolverC1.resolve_global ((0, 5))).1 = none
      ∧ (exResolverC1.resolve_global ((0, 5))).2.resolved_globals.all_resolved = false
      ∧ (exResolverC1.resolve_global ((7, 8))).1 = some (v2.GlobalUUID.Module 0) := by
  have h5 := v2.resolve_global_spec exResolverC1 (0, 5)
  have h8 := v2.resolve_global_spec exResolverC1 (7, 8)
  obtain ⟨-, -, -, hD⟩ := h5
  have hcoll := hD [v2.GlobalUUID.Module 0, v2.GlobalUUID.Module 1] (by rfl) (by decide)
  obtain ⟨hA, -, -, -⟩ := h8
  exact ⟨hcoll.1, hcoll.2.1, (hA (v2.GlobalUUID.Module 0)).mpr (by rfl)⟩

namespace v2

/-- C4: `check_all_template_args_valid` returns `true` and emits nothing
exactly when no declared formal's slot is `NotProvided` (aligned
positionally with the formal list); otherwise it returns `false` and
appends exactly one error naming the target and listing every missing
formal in declaration order, with one "defined here" info label per
missing formal pointing at that formal's declaration. -/
theorem check_all_template_args_valid_spec (errors : ErrorStore) (span : Span)
    (li : LinkInfo) (args : List ConcreteTemplateArg) :
    ((check_all_template_args_valid errors span li args).1 = true ↔
        ∀ p ∈ li.template_arguments.zip args, p.2 ≠ ConcreteTemplateArg.NotProvided)
    ∧ ((check_all_template_args_valid errors span li args).1 = true →
        (check_all_template_args_valid errors span li args).2 = errors)
    ∧ ((check_all_template_args_valid errors span li args).1 = false →
        (check_all_template_args_valid errors span li args).2 = errors ++
          [⟨span,
            "Could not instantiate " ++ li.get_full_name
              ++ " because the template arguments " ++ uncoveredPortsList (missingTemplateArgs li args)
              ++ " were missing and no default was provided",
            (missingTemplateArgs li args).map
              (fun v => ⟨(v.name_span, li.file), "'" ++ v.name ++ "' defined here"⟩)⟩]) := by
  have hiff : missingTemplateArgs li args = [] ↔
      ∀ p ∈ li.template_arguments.zip args, p.2 ≠ ConcreteTemplateArg.NotProvided := by
    unfold missingTemplateArgs
    rw [List.filterMap_eq_nil_iff]
    constructor
    · intro hall p hp hnp
      have h2 := hall p hp
      rw [hnp] at h2
      cases h2
    · intro hall p hp
      cases h2 : p.2 with
      | «Type» t => rfl
      | Value v => rfl
      | NotProvided => exact absurd h2 (hall p hp)
  by_cases hm : missingTemplateArgs li args = []
  · refine ⟨?_, ?_, ?_⟩
    · constructor
      · intro _
        exact hiff.mp hm
      · intro _
        simp [check_all_template_args_valid, hm]
    · intro _
      simp [check_all_template_args_valid, hm]
    · intro hfalse
      simp [check_all_template_args_valid, hm] at hfalse
  · have hne : (missingTemplateArgs li args).isEmpty = false := by
      cases hq : missingTemplateArgs li args with
      | nil => exact absurd hq hm
      | cons a t => rfl
    refine ⟨?_, ?_, ?_⟩
    · constructor
      · intro h1
        simp [check_all_template_args_valid, hne] at h1
      · intro hall
        exact absurd (hiff.mpr hall) hm
    · intro h1
      simp [check_all_template_args_valid, hne] at h1
    · intro _
      simp [check_all_template_args_valid, hne]

end v2

/-- Witness for `v2.check_all_template_args_valid_spec`: omitting both
required formals of `exLinkInfoC4` yields exactly one error naming the
target and both formals, with one label per missing formal. -/
theorem check_all_template_args_valid_spec_witness :
    (v2.check_all_template_args_valid [] ((9, 10)) exLinkInfoC4
        [v2.ConcreteTemplateArg.NotProvided, v2.ConcreteTemplateArg.NotProvided]).2
      = [⟨(9, 10),
          "Could not instantiate ::Target because the template arguments 'A', 'B' were missing and no default was provided",
          [⟨((1, 2), 7), "'A' defined here"⟩, ⟨((3, 4), 7), "'B' defined here"⟩]⟩] := by
  have h := v2.check_all_template_args_valid_spec [] ((9, 10)) exLinkInfoC4
    [v2.ConcreteTemplateArg.NotProvided, v2.ConcreteTemplateArg.NotProvided]
  obtain ⟨-, -, h3⟩ := h
  rw [h3 (by rfl)]
  rfl

namespace v2

/-- C5: `reabsorb_errors_globals` succeeds exactly when the unit's own
dependency record and error store are untouched and the supplied
checkpoint index equals the unit's current number of checkpoints; any
violation is the fatal-assertion (`none`) outcome, never a collected
diagnostic; on success the detached state is stored back and exactly one
new checkpoint is appended. -/
theorem reabsorb_errors_globals_spec (li : LinkInfo) (errors : ErrorStore)
    (rg : ResolvedGlobals) (cid : Nat) :
    ((li.reabsorb_errors_globals (errors, rg) cid).isSome = true ↔
        (li.resolved_globals.referenced_globals = [] ∧ li.resolved_globals.all_resolved = true
          ∧ li.errors = [] ∧ li.checkpoints.length = cid))
    ∧ (∀ li2, li.reabsorb_errors_globals (errors, rg) cid = some li2 →
        li2.errors = errors ∧ li2.resolved_globals = rg
          ∧ li2.checkpoints = li.checkpoints ++ [CheckPoint.checkpoint errors rg]
          ∧ li2.checkpoints.length = li.checkpoints.length + 1
          ∧ li2.name = li.name ∧ li2.file = li.file ∧ li2.name_span = li.name_span
          ∧ li2.template_arguments = li.template_arguments) := by
  constructor
  · unfold LinkInfo.reabsorb_errors_globals
    split_ifs with h1 h2 h3
    · simp only [Option.isSome_some, true_iff]
      simp [ResolvedGlobals.is_untouched, Bool.and_eq_true, List.isEmpty_iff] at h1
      simp [ErrorStore.is_untouched, List.isEmpty_iff] at h2
      exact ⟨h1.1, h1.2, h2, h3⟩
    · exact iff_of_false (by simp) (fun hc => h3 hc.2.2.2)
    · exact iff_of_false (by simp)
        (fun hc => h2 (by simp [ErrorStore.is_untouched, List.isEmpty_iff, hc.2.2.1]))
    · exact iff_of_false (by simp)
        (fun hc => h1 (by
          simp [ResolvedGlobals.is_untouched, Bool.and_eq_true, List.isEmpty_iff, hc.1, hc.2.1]))
  · intro li2 hli2
    unfold LinkInfo.reabsorb_errors_globals at hli2
    split_ifs at hli2
    cases hli2
    refine ⟨rfl, rfl, rfl, ?_, rfl, rfl, rfl, rfl⟩
    simp

end v2

/-- Witness for `v2.reabsorb_errors_globals_spec`: reattaching a
one-error, one-dependency state into the untouched `exLinkInfoC5` at the
expected checkpoint index 2 succeeds and appends exactly one checkpoint. -/
theorem reabsorb_errors_globals_spec_witness :
    ∃ li2, exLinkInfoC5.reabsorb_errors_globals
        ([⟨(0, 1), "e", []⟩], ⟨[v2.GlobalUUID.Module 0], false⟩) 2 = some li2
      ∧ li2.checkpoints.length = 3 := by
  have h := v2.reabsorb_errors_globals_spec exLinkInfoC5 [⟨(0, 1), "e", []⟩]
    ⟨[v2.GlobalUUID.Module 0], false⟩ 2
  obtain ⟨h1, h2⟩ := h
  have hs : (exLinkInfoC5.reabsorb_errors_globals
      ([⟨(0, 1), "e", []⟩], ⟨[v2.GlobalUUID.Module 0], false⟩) 2).isSome = true :=
    h1.mpr ⟨rfl, rfl, rfl, rfl⟩
  obtain ⟨li2, hli2⟩ := Option.isSome_iff_exists.mp hs
  refine ⟨li2, hli2, ?_⟩
  have hx := h2 li2 hli2
  rw [hx.2.2.2.1]
  rfl

namespace v2

/-- Helper: where each kind of stage event can sit in the recompile
trace: resets in the first block, flattens in the second, typechecks in
the third, instantiations only after all of those. -/
theorem recompile_event_position (modules : List Module) (i : Nat) (e : StageEvent)
    (h : (recompile_all_trace modules).get? i = some e) :
    (i < modules.length ∧ e = StageEvent.Reset i)
    ∨ (modules.length ≤ i ∧ i < 2 * modules.length ∧ e = StageEvent.Flatten (i - modules.length))
    ∨ (2 * modules.length ≤ i ∧ i < 3 * modules.length ∧ e = StageEvent.Typecheck (i - 2 * modules.length))
    ∨ (3 * modules.length ≤ i ∧ ∃ a, e = StageEvent.Instantiate a) := by
  unfold recompile_all_trace flatten_all_modules_trace typecheck_all_modules_trace at h
  have hA : ((List.range modules.length).map StageEvent.Reset).length = modules.length := by simp
  have hAB : (((List.range modules.length).map StageEvent.Reset)
      ++ (List.range modules.length).map StageEvent.Flatten).length = 2 * modules.length := by
    simp; omega
  have hABC : ((((List.range modules.length).map StageEvent.Reset)
      ++ (List.range modules.length).map StageEvent.Flatten)
      ++ (List.range modules.length).map StageEvent.Typecheck).length = 3 * modules.length := by
    simp; omega
  by_cases h3 : i < 3 * modules.length
  · rw [List.get?_append (by rw [hABC]; exact h3)] at h
    by_cases h2 : i < 2 * modules.length
    · rw [List.get?_append (by rw [hAB]; exact h2)] at h
      by_cases h1 : i < modules.length
      · rw [List.get?_append (by rw [hA]; exact h1)] at h
        rw [List.get?_map, List.get?_range h1] at h
        left
        refine ⟨h1, ?_⟩
        simpa using h.symm
      · push_neg at h1
        rw [List.get?_append_right (by rw [hA]; exact h1), hA] at h
        have hlt : i - modules.length < modules.length := by omega
        rw [List.get?_map, List.get?_range hlt] at h
        right; left
        refine ⟨h1, h2, ?_⟩
        simpa using h.symm
    · push_neg at h2
      rw [List.get?_append_right (by rw [hAB]; exact h2), hAB] at h
      have hlt : i - 2 * modules.length < modules.length := by omega
      rw [List.get?_map, List.get?_range hlt] at h
      right; right; left
      refine ⟨h2, h3, ?_⟩
      simpa using h.symm
  · push_neg at h3
    rw [List.get?_append_right (by rw [hABC]; exact h3)] at h
    have hmem := List.get?_mem h
    obtain ⟨a, _, ha⟩ := List.mem_map.mp hmem
    right; right; right
    exact ⟨h3, a, ha.symm⟩

/-- Helper: a Flatten event's position is in the second block. -/
theorem flatten_position (modules : List Module) (i a : Nat)
    (h : (recompile_all_trace modules).get? i = some (StageEvent.Flatten a)) :
    modules.length ≤ i ∧ i < 2 * modules.length := by
  rcases recompile_event_position modules i _ h with ⟨_, he⟩ | ⟨h1, h2, _⟩ | ⟨_, _, he⟩ | ⟨_, _, he⟩
  · cases he
  · exact ⟨h1, h2⟩
  · cases he
  · cases he

/-- Helper: a Typecheck event's position is in the third block. -/
theorem typecheck_position (modules : List Module) (i a : Nat)
    (h : (recompile_all_trace modules).get? i = some (StageEvent.Typecheck a)) :
    2 * modules.length ≤ i ∧ i < 3 * modules.length := by
  rcases recompile_event_position modules i _ h with ⟨_, he⟩ | ⟨_, _, he⟩ | ⟨h1, h2, _⟩ | ⟨_, _, he⟩
  · cases he
  · cases he
  · exact ⟨h1, h2⟩
  · cases he

/-- Helper: an Instantiate event's position is after all three blocks. -/
theorem instantiate_position (modules : List Module) (i a : Nat)
    (h : (recompile_all_trace modules).get? i = some (StageEvent.Instantiate a)) :
    3 * modules.length ≤ i := by
  rcases recompile_event_position modules i _ h with ⟨_, he⟩ | ⟨_, _, he⟩ | ⟨_, _, he⟩ | ⟨h1, _⟩
  · cases he
  · cases he
  · cases he
  · exact h1

/-- C6: in the `recompile_all` trace every module's Flatten event
precedes every module's AbstractTypecheck event, and every AbstractTypecheck
event precedes every Instantiate event. -/
theorem recompile_all_stage_ordering (modules : List Module) :
    (∀ i j a b, (recompile_all_trace modules).get? i = some (StageEvent.Flatten a) →
        (recompile_all_trace modules).get? j = some (StageEvent.Typecheck b) → i < j)
    ∧ (∀ i j a b, (recompile_all_trace modules).get? i = some (StageEvent.Typecheck a) →
        (recompile_all_trace modules).get? j = some (StageEvent.Instantiate b) → i < j) := by
  constructor
  · intro i j a b hi hj
    have h1 := flatten_position modules i a hi
    have h2 := typecheck_position modules j b hj
    omega
  · intro i j a b hi hj
    have h1 := typecheck_position modules i a hi
    have h2 := instantiate_position modules j b hj
    omega

end v2

/-- Witness for `v2.recompile_all_stage_ordering` at `exModulesC6`:
in its trace, module 0's Flatten (position 2) precedes module 0's
Typecheck (position 4). -/
theorem recompile_all_stage_ordering_witness :
    (v2.recompile_all_trace exModulesC6).get? 2 = some (v2.StageEvent.Flatten 0)
      ∧ (v2.recompile_all_trace exModulesC6).get? 4 = some (v2.StageEvent.Typecheck 0)
      ∧ (2 : Nat) < 4 := by
  refine ⟨rfl, rfl, ?_⟩
  exact (v2.recompile_all_stage_ordering exModulesC6).1 2 4 0 0 (by rfl) (by rfl)

namespace v2

/-- Helper: counting an Instantiate event inside a mapped index list. -/
theorem count_map_instantiate (l : List Nat) (k : Nat) :
    ((l.map StageEvent.Instantiate).count (StageEvent.Instantiate k)) = l.count k := by
  induction l with
  | nil => rfl
  | cons a t ih =>
    simp only [List.map_cons, List.count_cons, ih]
    by_cases hak : a = k
    · simp [hak]
    · simp [hak]

/-- Helper: the Reset/Flatten/Typecheck blocks contain no Instantiate
event. -/
theorem count_instantiate_blocks (n k : Nat) :
    (((List.range n).map StageEvent.Reset).count (StageEvent.Instantiate k) = 0)
    ∧ (((List.range n).map StageEvent.Flatten).count (StageEvent.Instantiate k) = 0)
    ∧ (((List.range n).map StageEvent.Typecheck).count (StageEvent.Instantiate k) = 0) := by
  refine ⟨?_, ?_, ?_⟩ <;>
    · apply List.count_eq_zero_of_not_mem
      intro hmem
      obtain ⟨a, _, ha⟩ := List.mem_map.mp hmem
      cases ha

/-- C8: in the `recompile_all` trace, a module declared with no template
parameters is instantiated exactly once — by the trace itself, with no
explicit caller's instantiate call — and its Instantiate event comes
strictly after its AbstractTypecheck event; a module with template
parameters is never eagerly instantiated. -/
theorem recompile_all_eager_instantiation (modules : List Module) (k : Nat) (md : Module)
    (h : modules.get? k = some md) :
    ((recompile_all_trace modules).count (StageEvent.Instantiate k)
        = if md.link_info.template_arguments.isEmpty then 1 else 0)
    ∧ (md.link_info.template_arguments.isEmpty = true →
        ∃ i j, (recompile_all_trace modules).get? i = some (StageEvent.Typecheck k)
          ∧ (recompile_all_trace modules).get? j = some (StageEvent.Instantiate k) ∧ i < j) := by
  have hk : k < modules.length := by
    by_contra hnk
    push_neg at hnk
    rw [List.get?_eq_none.mpr hnk] at h
    cases h
  have hp : eagerlyInstantiated modules k = md.link_info.template_arguments.isEmpty := by
    unfold eagerlyInstantiated
    rw [h]
  have hA : ((List.range modules.length).map StageEvent.Reset).length = modules.length := by simp
  have hAB : (((List.range modules.length).map StageEvent.Reset)
      ++ (List.range modules.length).map StageEvent.Flatten).length = 2 * modules.length := by
    simp; omega
  have hABC : ((((List.range modules.length).map StageEvent.Reset)
      ++ (List.range modules.length).map StageEvent.Flatten)
      ++ (List.range modules.length).map StageEvent.Typecheck).length = 3 * modules.length := by
    simp; omega
  constructor
  · unfold recompile_all_trace flatten_all_modules_trace typecheck_all_modules_trace
    rw [List.count_append, List.count_append, List.count_append]
    rw [(count_instantiate_blocks modules.length k).1,
        (count_instantiate_blocks modules.length k).2.1,
        (count_instantiate_blocks modules.length k).2.2]
    rw [count_map_instantiate]
    by_cases he : md.link_info.template_arguments.isEmpty = true
    · have hmem : k ∈ (List.range modules.length).filter (eagerlyInstantiated modules) := by
        rw [List.mem_filter]
        exact ⟨List.mem_range.mpr hk, by rw [hp]; exact he⟩
      rw [List.count_eq_one_of_mem ((List.nodup_range modules.length).filter _) hmem]
      rw [he]
      rfl
    · have hmem : k ∉ (List.range modules.length).filter (eagerlyInstantiated modules) := by
        rw [List.mem_filter]
        intro hcon
        rw [hp] at hcon
        exact he hcon.2
      rw [List.count_eq_zero_of_not_mem hmem]
      simp [he]
  · intro he
    have hmem : k ∈ (List.range modules.length).filter (eagerlyInstantiated modules) := by
      rw [List.mem_filter]
      exact ⟨List.mem_range.mpr hk, by rw [hp]; exact he⟩
    obtain ⟨idx, hidx⟩ := List.get?_of_mem hmem
    have hidxlt : idx < ((List.range modules.length).filter (eagerlyInstantiated modules)).length := by
      by_contra hcon
      push_neg at hcon
      rw [List.get?_eq_none.mpr hcon] at hidx
      cases hidx
    refine ⟨2 * modules.length + k, 3 * modules.length + idx, ?_, ?_, by omega⟩
    · unfold recompile_all_trace flatten_all_modules_trace typecheck_all_modules_trace
      rw [List.get?_append (by rw [hABC]; omega)]
      rw [List.get?_append_right (by rw [hAB]; omega), hAB]
      have : 2 * modules.length + k - 2 * modules.length = k := by omega
      rw [this, List.get?_map, List.get?_range hk]
      rfl
    · unfold recompile_all_trace flatten_all_modules_trace typecheck_all_modules_trace
      rw [List.get?_append_right (by rw [hABC]; omega), hABC]
      have : 3 * modules.length + idx - 3 * modules.length = idx := by omega
      rw [this, List.get?_map, hidx]
      rfl

end v2

/-- Witness for `v2.recompile_all_eager_instantiation` at `exModulesC6`:
module 0 (no template parameters) is instantiated exactly once, after its
typecheck; module 1 (one template parameter) is never instantiated. -/
theorem recompile_all_eager_instantiation_witness :
    ((v2.recompile_all_trace exModulesC6).count (v2.StageEvent.Instantiate 0) = 1)
      ∧ ((v2.recompile_all_trace exModulesC6).count (v2.StageEvent.Instantiate 1) = 0)
      ∧ (∃ i j, (v2.recompile_all_trace exModulesC6).get? i = some (v2.StageEvent.Typecheck 0)
          ∧ (v2.recompile_all_trace exModulesC6).get? j = some (v2.StageEvent.Instantiate 0) ∧ i < j) := by
  have h0 := v2.recompile_all_eager_instantiation exModulesC6 0
    ⟨⟨"m0", 0, (0, 2), [], [], v2.ResolvedGlobals.empty, []⟩⟩ (by rfl)
  have h1 := v2.recompile_all_eager_instantiation exModulesC6 1
    ⟨⟨"m1", 0, (0, 2), [⟨"T", (3, 4), v2.TemplateInputKind.«Type» ⟨⟩⟩], [], v2.ResolvedGlobals.empty, []⟩⟩ (by rfl)
  refine ⟨?_, ?_, h0.2 (by rfl)⟩
  · simpa using h0.1
  · simpa using h1.1

/-- Helper: a run of `add_declaration`s only ever appends to the stack
and never moves the current frame start. -/
theorem applyDecls_extends (ctx : LocalVariableContext Nat) (ds : List (String × Nat)) :
    (∃ ext, (applyDecls ctx ds).local_stack = ctx.local_stack ++ ext)
    ∧ (applyDecls ctx ds).current_frame_starts_at = ctx.current_frame_starts_at := by
  induction ds generalizing ctx with
  | nil => exact ⟨⟨[], by simp [applyDecls]⟩, rfl⟩
  | cons d ds ih =>
    unfold applyDecls
    cases hadd : ctx.add_declaration d.1 d.2 with
    | error cid => exact ih ctx
    | ok ctx2 =>
      have hctx2 : ctx2 = { ctx with local_stack := ctx.local_stack ++ [(d.1, d.2)] } := by
        unfold LocalVariableContext.add_declaration at hadd
        cases hf : ctx.local_stack.find? (fun p => p.1 == d.1) with
        | some p => rw [hf] at hadd; cases hadd
        | none =>
          rw [hf] at hadd
          cases hadd
          rfl
      obtain ⟨⟨ext, hext⟩, hcur⟩ := ih ctx2
      subst hctx2
      refine ⟨⟨(d.1, d.2) :: ext, ?_⟩, hcur⟩
      rw [hext]
      simp

/-- C9 (amended): in the local-variable context, a successfully added
binding is the one `get_declaration_for` subsequently returns;
`add_declaration` rejects a redeclaration of a name bound anywhere in the
stack — in the same frame or in any enclosing frame, so an inner frame can
NOT shadow an outer name — returning the conflicting declaration's id; and
`pop_frame` restores the stack to its state at the matching `new_frame`. -/
theorem local_variable_context_spec (ctx : LocalVariableContext Nat) (name : String) (id : Nat) :
    (∀ ctx2, ctx.add_declaration name id = Except.ok ctx2 →
        ctx2.get_declaration_for name = some id)
    ∧ ((∃ cid, ctx.add_declaration name id = Except.error cid) ↔
        ∃ p ∈ ctx.local_stack, p.1 = name)
    ∧ (∀ cid, ctx.add_declaration name id = Except.error cid →
        ∃ p ∈ ctx.local_stack, p.1 = name ∧ p.2 = cid)
    ∧ (∀ ds : List (String × Nat),
        ∃ ctx3, (applyDecls (ctx.new_frame).2 ds).pop_frame (ctx.new_frame).1 = some ctx3
          ∧ ctx3.local_stack = ctx.local_stack) := by
  refine ⟨?_, ?_, ?_, ?_⟩
  · intro ctx2 hok
    unfold LocalVariableContext.add_declaration at hok
    cases hf : ctx.local_stack.find? (fun p => p.1 == name) with
    | some p => rw [hf] at hok; cases hok
    | none =>
      rw [hf] at hok
      cases hok
      unfold LocalVariableContext.get_declaration_for
      simp [List.find?]
  · constructor
    · rintro ⟨cid, herr⟩
      unfold LocalVariableContext.add_declaration at herr
      cases hf : ctx.local_stack.find? (fun p => p.1 == name) with
      | none => rw [hf] at herr; cases herr
      | some p =>
        have hpred0 := List.find?_some hf
        have hpred : (p.1 == name) = true := hpred0
        exact ⟨p, List.mem_of_find?_eq_some hf, eq_of_beq hpred⟩
    · rintro ⟨p, hmem, hp1⟩
      unfold LocalVariableContext.add_declaration
      cases hf : ctx.local_stack.find? (fun q => q.1 == name) with
      | some q => exact ⟨q.2, rfl⟩
      | none =>
        have hn := List.find?_eq_none.mp hf p hmem
        exact absurd (by rw [hp1]; exact beq_self_eq_true name) hn
  · intro cid herr
    unfold LocalVariableContext.add_declaration at herr
    cases hf : ctx.local_stack.find? (fun p => p.1 == name) with
    | none => rw [hf] at herr; cases herr
    | some p =>
      rw [hf] at herr
      injection herr with hcid
      have hpred0 := List.find?_some hf
      have hpred : (p.1 == name) = true := hpred0
      exact ⟨p, List.mem_of_find?_eq_some hf, eq_of_beq hpred, hcid⟩
  · intro ds
    obtain ⟨⟨ext, hext⟩, hcur⟩ := applyDecls_extends (ctx.new_frame).2 ds
    have hge : (applyDecls (ctx.new_frame).2 ds).current_frame_starts_at ≥ (ctx.new_frame).1 := by
      rw [hcur]
      exact Nat.le.refl
    have hpop : (applyDecls (ctx.new_frame).2 ds).pop_frame (ctx.new_frame).1
        = some ⟨(applyDecls (ctx.new_frame).2 ds).local_stack.take (ctx.new_frame).1, (ctx.new_frame).1⟩ := by
      unfold LocalVariableContext.pop_frame
      rw [if_pos hge]
    refine ⟨_, hpop, ?_⟩
    show ((applyDecls (ctx.new_frame).2 ds).local_stack.take (ctx.new_frame).1) = ctx.local_stack
    rw [hext]
    show ((ctx.local_stack ++ ext).take ctx.local_stack.length) = ctx.local_stack
    exact List.take_left ctx.local_stack ext

/-- C9 counterexample: with `x` declared in the enclosing frame
(`exCtxC9`), an attempted declaration of `x` in a fresh inner frame is
rejected with the outer binding's id 0 — the claimed shadowing does not
happen. -/
theorem local_shadowing_cex :
    ((exCtxC9.new_frame).2).add_declaration ("x") 1 = Except.error 0 := by
  rfl

/-- Witness for `local_variable_context_spec` at `exCtxC9`: the same-stack
redeclaration of `x` is rejected, and a frame opened, filled and popped
restores the original stack. -/
theorem local_variable_context_spec_witness :
    (∃ cid, exCtxC9.add_declaration ("x") 1 = Except.error cid)
      ∧ ∃ ctx3, (applyDecls ((exCtxC9.new_frame).2) [("y", 2)]).pop_frame ((exCtxC9.new_frame).1) = some ctx3
          ∧ ctx3.local_stack = exCtxC9.local_stack := by
  have h := local_variable_context_spec exCtxC9 ("x") 1
  exact ⟨h.2.1.mpr ⟨("x", 0), by decide, rfl⟩, h.2.2.2 [("y", 2)]⟩

namespace v2

/-- Helper: declaration gathering allocates entities and namespace
entries but never touches the file registry. -/
theorem gatherDecls_files (file_id : FileUUID) (acc : Linker × List GlobalUUID) (names : List String) :
    (gatherDecls file_id acc names).1.files = acc.1.files := by
  induction names generalizing acc with
  | nil => rfl
  | cons name rest ih =>
    unfold gatherDecls
    exact ih _

/-- Helper: declaration gathering followed by the reattachment of the
gathered `associated_values` into the file record. -/
theorem gather_initial_file_data_eq (l : Linker) (fid : FileUUID) (fd : FileData)
    (h : l.files.get? fid = some fd) :
    gather_initial_file_data l fid
      = { (gatherDecls fid (l, []) fd.tree).1 with
          files := (gatherDecls fid (l, []) fd.tree).1.files.alloc_reservation fid
            { fd with associated_values := (gatherDecls fid (l, []) fd.tree).2 } } := by
  unfold gather_initial_file_data
  rw [h]

/-- C10: `add_file` with a `file_identifier` equal to an already
registered file's identifier fails the fatal assertion — the `none`
outcome, reached before any state is modified; with a fresh identifier it
reserves the next file id, fills it with the new file's data (leaving
every previously registered file untouched), runs declaration gathering,
and returns the newly reserved id. -/
theorem add_file_spec (l : Linker) (ident : String) (text : FileText) (tree : SyntaxTree) :
    ((∃ s ∈ l.files.slots, ∃ fdv, s = some fdv ∧ fdv.file_identifier = ident) →
        l.add_file ident text tree = none)
    ∧ ((¬ ∃ s ∈ l.files.slots, ∃ fdv, s = some fdv ∧ fdv.file_identifier = ident) →
        ∃ l2, l.add_file ident text tree = some (l2, l.files.slots.length)
          ∧ l.files.get? (l.files.slots.length) = none
          ∧ ((l2.files.get? (l.files.slots.length)).map FileData.file_identifier = some ident
              ∧ (l2.files.get? (l.files.slots.length)).map FileData.file_text = some text
              ∧ (l2.files.get? (l.files.slots.length)).map FileData.tree = some tree)
          ∧ (∀ j, j < l.files.slots.length → l2.files.get? j = l.files.get? j)) := by
  have hany : (l.files.slots.any (fun s => match s with
      | some fd => fd.file_identifier == ident
      | none => false)) = true ↔
      ∃ s ∈ l.files.slots, ∃ fdv, s = some fdv ∧ fdv.file_identifier = ident := by
    rw [List.any_eq_true]
    constructor
    · rintro ⟨s, hs, hp⟩
      cases s with
      | none => cases hp
      | some fdv => exact ⟨some fdv, hs, fdv, rfl, eq_of_beq hp⟩
    · rintro ⟨s, hs, fdv, hsfd, hid⟩
      subst hsfd
      refine ⟨some fdv, hs, ?_⟩
      show (fdv.file_identifier == ident) = true
      rw [hid]
      exact beq_self_eq_true ident
  constructor
  · intro hdup
    unfold Linker.add_file
    rw [if_pos (hany.mpr hdup)]
  · intro hfresh
    have hanyf : (l.files.slots.any (fun s => match s with
        | some fd => fd.file_identifier == ident
        | none => false)) = false := by
      cases hq : (l.files.slots.any (fun s => match s with
          | some fd => fd.file_identifier == ident
          | none => false)) with
      | true => exact absurd (hany.mp hq) hfresh
      | false => rfl
    have hlen : l.files.slots.length < (l.files.slots ++ [none]).length := by
      simp
    -- the freshly filled slot, before gathering
    have hgetnew : ((l.files.slots ++ [none]).set l.files.slots.length
        (some { file_identifier := ident, file_text := text, tree := tree,
                associated_values := [], parsing_errors := [] })).get? l.files.slots.length
        = some (some { file_identifier := ident, file_text := text, tree := tree,
                       associated_values := [], parsing_errors := [] }) :=
      List.get?_set_eq_of_lt _ hlen
    have hget2 : ArenaAllocator.get?
        (⟨(l.files.slots ++ [none]).set l.files.slots.length
          (some { file_identifier := ident, file_text := text, tree := tree,
                  associated_values := [], parsing_errors := [] })⟩ : ArenaAllocator FileData)
        l.files.slots.length
        = some { file_identifier := ident, file_text := text, tree := tree,
                 associated_values := [], parsing_errors := [] } := by
      unfold ArenaAllocator.get?
      rw [hgetnew]
      rfl
    unfold Linker.add_file
    rw [if_neg (by rw [hanyf]; exact Bool.false_ne_true)]
    dsimp only [ArenaAllocator.reserve, ArenaAllocator.alloc_reservation]
    rw [gather_initial_file_data_eq _ _ _ hget2]
    refine ⟨_, rfl, ?_, ?_, ?_⟩
    · unfold ArenaAllocator.get?
      rw [List.get?_eq_none.mpr (Nat.le_refl _)]
      rfl
    · refine ⟨?_, ?_, ?_⟩ <;>
        · dsimp only
          unfold ArenaAllocator.alloc_reservation ArenaAllocator.get?
          rw [gatherDecls_files]
          dsimp only
          rw [List.set_set]
          rw [List.get?_set_eq_of_lt _ (by simp)]
          rfl
    · intro j hj
      dsimp only
      unfold ArenaAllocator.alloc_reservation ArenaAllocator.get?
      rw [gatherDecls_files]
      dsimp only
      rw [List.set_set]
      rw [List.get?_set_ne _ _ (by omega)]
      rw [List.get?_append hj]

end v2

/-- Witness for `v2.add_file_spec` at `exLinkerC10`: adding a second file
named `a.sus` hits the fatal assertion (`none`), while a fresh `b.sus` is
registered at the next file id 1 and file 0 is untouched. -/
theorem add_file_spec_witness :
    exLinkerC10.add_file ("a.sus") [] [] = none
      ∧ ∃ l2, exLinkerC10.add_file ("b.sus") [] ["m"] = some (l2, 1)
          ∧ (∃ fdv, l2.files.get? 1 = some fdv ∧ fdv.file_identifier = "b.sus")
          ∧ l2.files.get? 0 = exLinkerC10.files.get? 0 := by
  have ha := v2.add_file_spec exLinkerC10 ("a.sus") [] []
  have hb := v2.add_file_spec exLinkerC10 ("b.sus") [] ["m"]
  have hdup : ∃ s ∈ exLinkerC10.files.slots, ∃ fdv : v2.FileData,
      s = some fdv ∧ fdv.file_identifier = "a.sus" :=
    ⟨some ⟨"a.sus", [], [], [], []⟩, by decide, ⟨"a.sus", [], [], [], []⟩, rfl, rfl⟩
  refine ⟨ha.1 hdup, ?_⟩
  obtain ⟨l2, hsome, -, ⟨hid, -, -⟩, hpres⟩ := hb.2 (by
    rintro ⟨s, hs, fdv, hsfd, hid⟩
    subst hsfd
    have h2 : fdv = (⟨"a.sus", [], [], [], []⟩ : v2.FileData) := by
      simpa [exLinkerC10] using hs
    rw [h2] at hid
    exact absurd hid (by decide))
  obtain ⟨fdv, hget, hfid⟩ := Option.map_eq_some'.mp hid
  exact ⟨l2, hsome, ⟨fdv, hget, hfid⟩, hpres 0 (by decide)⟩
